import Mathlib

/-!
Shallow embedding of the SX1278 LoRa SPI driver (src/LoRa/spi-sx1278.c).

Registers are modelled as plain bytes (`Nat` values `< 256`); each driver
function that performs a read-modify-write on a register is embedded as a
pure function from the register's prior value (and the function's arguments)
to the byte the driver writes back.  The chip's write-1-to-clear semantics
of the IRQ-flags register is modelled by `w1c`.  Machine-integer wrap-around
is made explicit with `% 256`, `% 2^32`, `% 2^64` where the C types demand
it; C's truncating signed division is `Int.div`.
-/

set_option maxRecDepth 8192

namespace SX1278

/-- Hardware write-1-to-clear semantics of the IRQ-flags register: writing
byte `w` clears exactly the flag bits set in `w` and leaves the rest. -/
def w1c (flags w : Nat) : Nat := flags &&& (w ^^^ 255)

/-- `sx127X_clearLoRaFlag` (spi-sx1278.c:481-491): the byte the driver
writes to `REG_IRQ_FLAGS`, given the current flags value it just read back
and the mask `f` of flags to clear.  The C code is
`flag = getLoRaAllFlag(spi); flag |= f; write_reg(REG_IRQ_FLAGS, flag)`. -/
def sx127X_clearLoRaFlag_write (flags f : Nat) : Nat := flags ||| f

/-- `sx127X_setLoRaCR` (spi-sx1278.c:597-605): new value of MODEM_CONFIG1
written back, from its prior value `mcf1` and the coding-rate byte `cr`:
`mcf1 = (mcf1 & 0x0E) | (((cr & 0xF) - 4) << 1)` (uint8_t result). -/
def sx127X_setLoRaCR (mcf1 cr : Nat) : Nat :=
  ((mcf1 &&& 0x0E) ||| (((cr &&& 0xF) - 4) <<< 1)) % 256

/-- `sx127X_getLoRaCR` (spi-sx1278.c:614-624):
`cr = 0x40 + ((mcf1 & 0x0E) >> 1) + 4`. -/
def sx127X_getLoRaCR (mcf1 : Nat) : Nat :=
  (0x40 + ((mcf1 &&& 0x0E) >>> 1) + 4) % 256

/-- The `lna_gain` table (spi-sx1278.c:384-391), a 6-entry array of
`int8_t`, valid indices 0..5. -/
def lna_gain : List Int := [0, -6, -12, -24, -26, -48]

/-- `sx127X_getLoRaLNA` (spi-sx1278.c:421-434), the table index it computes:
`g = lnacf >> 5; i = g - 1` with `i` of C type `int8_t`, then the code
dereferences `lna_gain[i]`.  Since `lnacf >> 5 ≤ 7`, the `int8_t`
arithmetic is exact and `i = (lnacf >> 5) - 1` over `Int`. -/
def sx127X_getLoRaLNA_index (lnacf : Nat) : Int :=
  (((lnacf % 256) >>> 5 : Nat) : Int) - 1

/-- The scan loop of `sx127X_setLoRaSPRFactor`, with the remaining
iteration count `12 - sf` made an explicit structural argument. -/
def sprGo (c_s : Nat) : Nat → Nat → Nat
  | sf, 0 => sf
  | sf, fuel + 1 => if c_s = 1 <<< sf then sf else sprGo c_s (sf + 1) fuel

/-- `sx127X_setLoRaSPRFactor` (spi-sx1278.c:504-518), the scan loop:
`for (sf = 6; sf < 12; sf++) if (c_s == 1 << sf) break;` — returns the
value of `sf` after the loop (12 when no power of two matches). -/
def sprLoop (c_s : Nat) : Nat := sprGo c_s 6 6

/-- `sx127X_setLoRaSPRFactor` (spi-sx1278.c:504-518): the new MODEM_CONFIG2
byte written back, `mcf2 = (mcf2 & 0x0F) | (sf << 4)`, from the prior
register value and the requested chips-per-symbol `c_s`.  The write is
unconditional in the C code. -/
def sx127X_setLoRaSPRFactor_mcf2 (c_s mcf2 : Nat) : Nat :=
  ((mcf2 &&& 0x0F) ||| ((sprLoop c_s) <<< 4)) % 256

/-- `sx127X_getLoRaSPRFactor` (spi-sx1278.c:526-537):
`sf = mcf2 >> 4; c_s = 1 << sf`. -/
def sx127X_getLoRaSPRFactor (mcf2 : Nat) : Nat :=
  1 <<< ((mcf2 % 256) >>> 4)

/-- Crystal-oscillator default `F_XOSC` (spi-sx1278.c:59). -/
def F_XOSC : Nat := 32000000

/-- `__POW_2_19` (spi-sx1278.c:61). -/
def POW_2_19 : Nat := 0x80000

/-- `sx127X_setLoRaFreq` (spi-sx1278.c:249-278), the 32-bit value `frt`:
`frt64 = (uint64_t)fr * __POW_2_19; do_div(frt64, f_xosc); frt = frt64;`
(`do_div` is truncating unsigned 64-bit division; the assignment to the
`uint32_t` local truncates mod `2^32`). -/
def sx127X_setLoRaFreq_frt (fr f_xosc : Nat) : Nat :=
  ((((fr % 2 ^ 32) * POW_2_19) % 2 ^ 64) / f_xosc) % 2 ^ 32

/-- `sx127X_setLoRaFreq` (spi-sx1278.c:272-277), the 3-byte buffer written
to `REG_FRF_MSB`: the loop `for (i = 2; i >= 0; i--) { buf[i] = frt % 256;
frt = frt >> 8; }` stores `frt` big-endian. -/
def sx127X_setLoRaFreq_buf (fr f_xosc : Nat) : List Nat :=
  let frt := sx127X_setLoRaFreq_frt fr f_xosc
  [(frt >>> 16) % 256, (frt >>> 8) % 256, frt % 256]

/-- Value of a 3-byte big-endian register image (how the chip interprets
the bytes written to FRF_MSB/MID/LSB, cf. `sx127X_getLoRaFreq`,
spi-sx1278.c:310-311). -/
def frfValue (buf : List Nat) : Nat :=
  buf.foldl (fun frt b => frt * 256 + b) 0

/-- `sx127X_setLoRaPower` (spi-sx1278.c:323-352): the PA_CONFIG byte
`pac = (boost << 7) | (pmax << 4) | outputPower` written for requested
power `pout` dBm (`int32_t`).  `outputPower` is a `uint8_t`, so the
assignments `pout - 2`, `3 + pout`, `pout` reduce mod 256. -/
def sx127X_setLoRaPower_pac (pout : Int) : Nat :=
  if pout > 15 then
    ((1 <<< 7) ||| (7 <<< 4) ||| ((pout - 2).emod 256).toNat) % 256
  else if pout < 0 then
    ((0 <<< 7) ||| (2 <<< 4) ||| ((3 + pout).emod 256).toNat) % 256
  else
    ((0 <<< 7) ||| (7 <<< 4) ||| (pout.emod 256).toNat) % 256

/-- `sx127X_getLoRaPower` (spi-sx1278.c:360-382): decodes a PA_CONFIG byte
back to dBm.  The non-boost branch uses C's truncating signed division
(`Int.tdiv`): `pout = (pmax - (150 - outputPower * 10)) / 10` with
`pmax = 108 + 6 * ((pac & 0x70) >> 4)`. -/
def sx127X_getLoRaPower (pac : Nat) : Int :=
  let boost := (pac &&& 0x80) >>> 7
  let outputPower : Int := (pac &&& 0x0F : Nat)
  if boost ≠ 0 then
    2 + outputPower
  else
    let pmax : Int := 108 + 6 * ((pac &&& 0x70) >>> 4 : Nat)
    Int.tdiv (pmax - (150 - outputPower * 10)) 10

/-- The `hz` bandwidth table (spi-sx1278.c:539-550). -/
def hz : List Nat :=
  [7800, 10400, 15600, 20800, 31250, 41700, 62500, 125000, 250000, 500000]

/-- The scan loop of `sx127X_setLoRaBW`, with the remaining iteration
count `9 - i` made an explicit structural argument. -/
def bwGo (bw : Nat) : Nat → Nat → Nat
  | i, 0 => i
  | i, fuel + 1 => if bw ≤ hz.getD i 0 then i else bwGo bw (i + 1) fuel

/-- `sx127X_setLoRaBW` (spi-sx1278.c:557-571), the scan loop:
`for (i = 0; i < 9; i++) if (hz[i] >= bw) break;` — the bandwidth-table
index written afterwards into bits 7-4 of MODEM_CONFIG1
(`mcf1 = (mcf1 & 0x0F) | (i << 4)`). -/
def sx127X_setLoRaBW_index (bw : Nat) : Nat := bwGo bw 0 9

/-- `sx127X_setState` (spi-sx1278.c:216-226): the op-mode byte written,
`op_mode = (op_mode & 0xF8) | (st & 0x07)`, from the prior register value
(read back via `sx127X_getMode`) and the requested state `st`. -/
def sx127X_setState (op_mode st : Nat) : Nat :=
  (op_mode &&& 0xF8) ||| (st &&& 0x07)

/-! ### IRQ flag masks and chip operating modes

Modelled from the spec: the named IRQ-flag bit masks
(`SX127X_FLAG_RXTIMEOUT` …) and operating-mode codes (`SX127X_SLEEP_MODE` …)
are declared in the header `sx1278.h`, which is not among the source files;
the spec fixes the flag names (RX timeout, RX done, payload CRC error,
TX done — the SX127X IRQ-flags register assigns them bits 7, 6, 5, 3) and
the mode enumeration {Sleep, Standby, FSTX, TX, FSRX, RXContinuous,
RXSingle, CAD} (the 3-bit mode-field codes 0..7, in that order). -/

def SX127X_FLAG_RXTIMEOUT : Nat := 0x80
def SX127X_FLAG_RXDONE : Nat := 0x40
def SX127X_FLAG_PAYLOADCRCERROR : Nat := 0x20
def SX127X_FLAG_TXDONE : Nat := 0x08

def SX127X_SLEEP_MODE : Nat := 0x00
def SX127X_STANDBY_MODE : Nat := 0x01
def SX127X_TX_MODE : Nat := 0x03
def SX127X_RXCONTINUOUS_MODE : Nat := 0x05

/-- Modelled from the spec: Linux errno codes used by the data path
(`-ENODATA`, `-EBADMSG`), defined in kernel headers outside this
repository; `ENODATA = 61`, `EBADMSG = 74`. -/
def ENODATA : Nat := 61

def EBADMSG : Nat := 74

/-! ### Packet data path (loraspi_read / loraspi_write)

The chip's IRQ-flags register is hardware-driven between successive reads,
so the driver's reads of that register are modelled by an oracle
`reads : Nat → Nat` giving the byte returned by the i-th read of
`REG_IRQ_FLAGS` during the operation. -/

/-- The RX poll loop of `loraspi_read` (spi-sx1278.c:1046-1055):
`for (timeout = 0; timeout < 250; timeout++) { flag = getLoRaFlag(spi,
RXTIMEOUT|RXDONE|PAYLOADCRCERROR); if (flag == 0) msleep(20); else break; }`.
Returns the final value of `flag` together with the number of IRQ-register
reads consumed.  `i` is the index of the next read, `fuel` the remaining
iterations. -/
def rxPollLoop (reads : Nat → Nat) (i fuel : Nat) : Nat × Nat :=
  match fuel with
  | 0 => (0, i)
  | f + 1 =>
    let flag := reads i &&&
      (SX127X_FLAG_RXTIMEOUT ||| SX127X_FLAG_RXDONE |||
       SX127X_FLAG_PAYLOADCRCERROR)
    if flag = 0 then rxPollLoop reads (i + 1) f else (flag, i + 1)

/-- `loraspi_read` (spi-sx1278.c:1046-1082) after the chip is in
RX-continuous mode: polls, classifies the outcome into `c`, and finally
calls `sx127X_clearLoRaAllFlag` = `clearLoRaFlag(spi, 0xFF)`, which reads
the flags once more and writes back `flags | 0xFF`.  Returns the result
`c` and the byte of that final IRQ-flags write.  `dataResult` is the value
`sx127X_readLoRaData` returns on the success path (a FIFO transfer, which
does not touch the IRQ register). -/
def loraspi_read_model (reads : Nat → Nat) (dataResult : Int) : Int × Nat :=
  let p := rxPollLoop reads 0 250
  let flag := p.1
  let n := p.2
  let c1 : Int :=
    if flag = 0 ∨ flag &&& SX127X_FLAG_RXTIMEOUT ≠ 0 then -(ENODATA : Int)
    else 0
  let c2 : Int :=
    if reads n &&& SX127X_FLAG_PAYLOADCRCERROR ≠ 0 then -(EBADMSG : Int)
    else c1
  let c3 : Int := if c2 = 0 then dataResult else c2
  let finalWrite := sx127X_clearLoRaFlag_write (reads (n + 1)) 0xFF
  (c3, finalWrite)

/-- The TX wait loop of `loraspi_write` (spi-sx1278.c:1139-1153):
`for (flag = 0; timeout > 0; timeout--) { flag = getLoRaFlag(spi, TXDONE);
if (flag != 0) break; if (timeout == 1) c = 0; else msleep(20); }`.
`flagAt i` is the IRQ-flags byte at the i-th poll; returns the final `c`. -/
def txPollLoop (flagAt : Nat → Nat) (i timeout : Nat) (c : Int) : Int :=
  match timeout with
  | 0 => c
  | t + 1 =>
    if flagAt i &&& SX127X_FLAG_TXDONE ≠ 0 then c
    else if t = 0 then 0
    else txPollLoop flagAt (i + 1) t c

/-- `loraspi_write` (spi-sx1278.c:1115-1165) after the user copy succeeded:
`c` is the byte count `sx127X_sendLoRaData` reported, `p` the preamble
length read back, `m0` the op-mode byte before the Standby transition.
When `c > 0` it enters TX and waits `timeout = (c + p + 1) + 2` ticks for
TXDONE, zeroing `c` on exhaustion; in every case it then steps the mode
register through Standby into RX-continuous.  Returns the result `c` and
the final op-mode byte. -/
def loraspi_write_model (flagAt : Nat → Nat) (p : Nat) (c : Int) (m0 : Nat) :
    Int × Nat :=
  let m1 := sx127X_setState m0 SX127X_STANDBY_MODE
  let mtx := if c > 0 then sx127X_setState m1 SX127X_TX_MODE else m1
  let res :=
    if c > 0 then txPollLoop flagAt 0 ((c + p + 1) + 2).toNat c else c
  let m2 := sx127X_setState mtx SX127X_STANDBY_MODE
  let m3 := sx127X_setState m2 SX127X_RXCONTINUOUS_MODE
  (res, m3)

/-! ### Theorems -/

/-- Claim C1 (code bug): the clear-flags operation does not write the mask
`m` alone.  Failing input: flags register `0x40` (RXDone set), mask `0x08`
(TXDone).  `sx127X_clearLoRaFlag` writes `flags | m = 0x48 ≠ 0x08`, and
under write-1-to-clear semantics that write clears RXDone (bit 6) even
though it is not in the mask — contradicting the claim that flag bits set
before the call and not in `m` remain set. -/
theorem clearLoRaFlag_clears_unrelated_flag :
    sx127X_clearLoRaFlag_write 0x40 0x08 = 0x48 ∧
    sx127X_clearLoRaFlag_write 0x40 0x08 ≠ 0x08 ∧
    Nat.testBit 0x40 6 = true ∧
    Nat.testBit (w1c 0x40 (sx127X_clearLoRaFlag_write 0x40 0x08)) 6 = false := by
  decide

/-- Claim C2 (code bug): `sx127X_setLoRaCR` masks MODEM_CONFIG1 with
`0x0E`, which keeps the old coding-rate field and clears everything else —
the inverse of the claimed partial update.  Failing input: prior
MODEM_CONFIG1 `0x74` (bandwidth nibble 7, coding-rate field 2, header bit
0), `cr = 0x45`.  The byte written is `0x06`: the bandwidth nibble becomes
0 (was 7) and the coding-rate field becomes 3 (old 2 OR-ed with the new
value 1) instead of `(cr & 0xF) - 4 = 1`. -/
theorem setLoRaCR_clobbers_unrelated_bits :
    sx127X_setLoRaCR 0x74 0x45 = 0x06 ∧
    (sx127X_setLoRaCR 0x74 0x45) >>> 4 = 0 ∧
    (0x74 : Nat) >>> 4 = 7 ∧
    ((sx127X_setLoRaCR 0x74 0x45) &&& 0x0E) >>> 1 = 3 ∧
    ((0x45 &&& 0xF) - 4 : Nat) = 1 := by
  decide

/-- Claim C3 (code bug): with the LNA register reading `0x00` (3-bit gain
field 0, the invalid "no gain" value), `sx127X_getLoRaLNA` computes the
table index `field - 1 = -1` and dereferences `lna_gain[-1]`, outside the
bounds `[0,5]` of the 6-entry table — the decode is not defined there, so
the claim that the access stays within `[0,5]` is violated by the code. -/
theorem getLoRaLNA_index_out_of_bounds :
    sx127X_getLoRaLNA_index 0 = -1 ∧
    ¬ (0 ≤ sx127X_getLoRaLNA_index 0) ∧
    lna_gain.length = 6 := by
  decide

/-- Claim C4, counterexample: `c_s = 100` lies in `[64, 2048]` and is not a
power of two, yet `sx127X_setLoRaSPRFactor` does not reject it: with prior
MODEM_CONFIG2 `0x00` it writes back `0xC0`, i.e. it stores `12` (the scan
loop's exhaustion value) into the spreading-factor field, changing the
field from 0 — refuting "it does not write any spreading-factor field". -/
theorem setLoRaSPRFactor_writes_on_invalid_input :
    (∀ sf, sf < 12 → (100 : Nat) ≠ 2 ^ sf) ∧
    sx127X_setLoRaSPRFactor_mcf2 100 0 = 0xC0 ∧
    (sx127X_setLoRaSPRFactor_mcf2 100 0) >>> 4 = 12 ∧
    ((0 : Nat)) >>> 4 = 0 := by
  decide

/-- Claim C5, counterexample: at `fr = 31` Hz with the default 32 MHz
crystal, `round(31 * 2^19 / 32000000) = 1` (the remainder `16252928` is at
least half the divisor), but the code's truncating `do_div` produces the
register value 0: the encode truncates, it does not round to nearest. -/
theorem setLoRaFreq_truncates_instead_of_rounding :
    frfValue (sx127X_setLoRaFreq_buf 31 32000000) = 0 ∧
    (31 * POW_2_19 + 32000000 / 2) / 32000000 = 1 := by
  decide

/-- Claim C6, counterexample: `decode(encode(18)) = 2 ≠ 18`.  For
`dBm = 18` the encoder's `outputPower = dBm - 2 = 16` no longer fits the
4-bit output-power field, so `pac = 0xF0` and the decoder recovers
`2 + (pac & 0x0F) = 2`.  The claimed round-trip fails on `{18, 19, 20}`. -/
theorem power_roundtrip_fails_at_18 :
    sx127X_setLoRaPower_pac 18 = 0xF0 ∧
    sx127X_getLoRaPower (sx127X_setLoRaPower_pac 18) = 2 := by
  decide

/-- When no `sf` in `[6, 12)` satisfies `c_s = 2 ^ sf`, the scan loop of
`sx127X_setLoRaSPRFactor` runs to exhaustion and leaves `sf = 12`. -/
lemma sprLoop_eq_twelve {c_s : Nat} (h : ∀ sf, sf < 12 → c_s ≠ 2 ^ sf) :
    sprLoop c_s = 12 := by
  have h6 := h 6 (by omega)
  have h7 := h 7 (by omega)
  have h8 := h 8 (by omega)
  have h9 := h 9 (by omega)
  have h10 := h 10 (by omega)
  have h11 := h 11 (by omega)
  norm_num at h6 h7 h8 h9 h10 h11
  simp [sprLoop, sprGo, Nat.one_shiftLeft, h6, h7, h8, h9, h10, h11]

/-- Claim C4 (amended): `sx127X_setLoRaSPRFactor` never rejects a value —
its C signature is `void` and the MODEM_CONFIG2 write is unconditional.
For a requested chips-per-symbol `c_s` that is no power of two the scan
loop exhausts and the spreading-factor field is written as 12; for
`c_s ∈ {64, 128, 256, 512, 1024, 2048}` it writes `sf` with `2^sf = c_s`
and `decode(encode(c_s)) = c_s`. -/
theorem setLoRaSPRFactor_amended (c_s mcf2 : Nat) (hm : mcf2 < 256) :
    ((∀ sf, sf < 12 → c_s ≠ 2 ^ sf) →
      (sx127X_setLoRaSPRFactor_mcf2 c_s mcf2) >>> 4 = 12) ∧
    (c_s ∈ [64, 128, 256, 512, 1024, 2048] →
      sx127X_getLoRaSPRFactor (sx127X_setLoRaSPRFactor_mcf2 c_s mcf2) = c_s ∧
      2 ^ ((sx127X_setLoRaSPRFactor_mcf2 c_s mcf2) >>> 4) = c_s) := by
  constructor
  · intro h
    have e := sprLoop_eq_twelve h
    simp only [sx127X_setLoRaSPRFactor_mcf2, e]
    revert mcf2
    decide
  · intro hmem
    simp only [List.mem_cons, List.mem_singleton, List.not_mem_nil,
      or_false] at hmem
    rcases hmem with h | h | h | h | h | h <;> subst h <;> revert mcf2 <;>
      decide

/-- Witness for the amended C4 at `c_s = 100` (not a power of two: field
becomes 12) and `c_s = 128` (round-trip), prior MODEM_CONFIG2 `0x37`. -/
theorem setLoRaSPRFactor_amended_witness :
    (0x37 : Nat) < 256 ∧
    (sx127X_setLoRaSPRFactor_mcf2 100 0x37) >>> 4 = 12 ∧
    sx127X_getLoRaSPRFactor (sx127X_setLoRaSPRFactor_mcf2 128 0x37) = 128 := by
  refine ⟨by decide, ?_, ?_⟩
  · exact (setLoRaSPRFactor_amended 100 0x37 (by decide)).1 (by decide)
  · exact ((setLoRaSPRFactor_amended 128 0x37 (by decide)).2 (by decide)).1

/-- Claim C5 (amended): the frequency encode writes the 3-byte big-endian
image of `⌊fr * 2^19 / crystal_Hz⌋` (truncating division, as `do_div`
performs), and the 64-bit intermediate `fr * 2^19` does not overflow for
any 32-bit `fr`. -/
theorem setLoRaFreq_encodes_floor (fr f_xosc : Nat) (h32 : fr < 2 ^ 32)
    (hx : 0 < f_xosc) (hq : fr * POW_2_19 / f_xosc < 2 ^ 24) :
    frfValue (sx127X_setLoRaFreq_buf fr f_xosc) = fr * POW_2_19 / f_xosc ∧
    fr * POW_2_19 < 2 ^ 64 := by
  have hov : fr * POW_2_19 < 2 ^ 64 := by
    have : POW_2_19 = 524288 := rfl
    rw [this]
    omega
  refine ⟨?_, hov⟩
  have hfr : fr % 2 ^ 32 = fr := Nat.mod_eq_of_lt h32
  have hmod : fr * POW_2_19 % 2 ^ 64 = fr * POW_2_19 := Nat.mod_eq_of_lt hov
  have hq32 : fr * POW_2_19 / f_xosc % 2 ^ 32 = fr * POW_2_19 / f_xosc :=
    Nat.mod_eq_of_lt (lt_trans hq (by norm_num))
  simp only [frfValue, sx127X_setLoRaFreq_buf, sx127X_setLoRaFreq_frt, hfr,
    hmod, hq32, List.foldl, Nat.shiftRight_eq_div_pow]
  norm_num
  omega

/-- Witness for the amended C5 at `fr = 434 MHz`, 32 MHz crystal:
the register image is `⌊434000000 * 2^19 / 32000000⌋ = 7110656`. -/
theorem setLoRaFreq_encodes_floor_witness :
    (434000000 : Nat) < 2 ^ 32 ∧ (0 : Nat) < 32000000 ∧
    434000000 * POW_2_19 / 32000000 < 2 ^ 24 ∧
    frfValue (sx127X_setLoRaFreq_buf 434000000 32000000) =
      434000000 * POW_2_19 / 32000000 := by
  refine ⟨by norm_num, by norm_num, by decide, ?_⟩
  exact (setLoRaFreq_encodes_floor 434000000 32000000 (by norm_num)
    (by norm_num) (by decide)).1

/-- Claim C6 (amended): power decode inverts power encode exactly for
every integer `dBm` in `[-2, 17]`, with the boost branch taken exactly
when `dBm > 15`.  (At 18..20 the 4-bit output-power field overflows and
the round-trip fails, so the claimed upper end 20 does not hold.) -/
theorem power_roundtrip_amended (dBm : Int) (h1 : -2 ≤ dBm)
    (h2 : dBm ≤ 17) :
    sx127X_getLoRaPower (sx127X_setLoRaPower_pac dBm) = dBm ∧
    (sx127X_setLoRaPower_pac dBm) >>> 7 = (if 15 < dBm then 1 else 0) := by
  interval_cases dBm <;> exact ⟨by decide, by decide⟩

/-- Witness for the amended C6 at `dBm = 16` (boost branch). -/
theorem power_roundtrip_amended_witness :
    (-2 : Int) ≤ 16 ∧ (16 : Int) ≤ 17 ∧
    sx127X_getLoRaPower (sx127X_setLoRaPower_pac 16) = 16 := by
  exact ⟨by decide, by decide,
    (power_roundtrip_amended 16 (by decide) (by decide)).1⟩

/-- A byte has no bits at positions 8 and above. -/
lemma testBit_byte_high {m j : Nat} (hm : m < 256) (hj : 8 ≤ j) :
    Nat.testBit m j = false := by
  apply Nat.testBit_lt_two_pow
  calc m < 256 := hm
    _ = 2 ^ 8 := by norm_num
    _ ≤ 2 ^ j := Nat.pow_le_pow_right (by norm_num) hj

/-- `0x07` has no bits at positions 3 and above. -/
lemma testBit_seven_high {j : Nat} (hj : 3 ≤ j) :
    Nat.testBit 0x07 j = false := by
  apply Nat.testBit_lt_two_pow
  calc (0x07 : Nat) < 2 ^ 3 := by norm_num
    _ ≤ 2 ^ j := Nat.pow_le_pow_right (by norm_num) hj

/-- A byte OR-ed with `0xFF` is `0xFF` (the clear-all write). -/
lemma lor_255_of_byte : ∀ x, x < 256 → x ||| 255 = 255 := by decide

/-- If all 250 monitored-mask reads are zero, the RX poll loop exhausts
with `flag = 0`, having consumed one read per iteration. -/
lemma rxPollLoop_all_zero (reads : Nat → Nat) :
    ∀ fuel i,
    (∀ j, j < fuel → reads (i + j) &&&
      (SX127X_FLAG_RXTIMEOUT ||| SX127X_FLAG_RXDONE |||
       SX127X_FLAG_PAYLOADCRCERROR) = 0) →
    rxPollLoop reads i fuel = (0, i + fuel) := by
  intro fuel
  induction fuel with
  | zero => intro i _; simp [rxPollLoop]
  | succ f ih =>
    intro i h
    have h0 := h 0 (by omega)
    simp only [rxPollLoop]
    rw [if_pos (by simpa using h0)]
    rw [ih (i + 1) (fun j hj => by
      have hh := h (j + 1) (by omega)
      have e : i + (j + 1) = i + 1 + j := by omega
      rwa [e] at hh)]
    have e : i + 1 + f = i + (f + 1) := by omega
    rw [e]

/-- Claim C7: in `loraspi_read`, the payload-CRC check overrides the
no-data classification; when the poll flag is zero or carries RXTimeout
(and no CRC error is flagged) the result is `-ENODATA`; 250 all-zero polls
leave the poll flag zero; and in every case the final IRQ-flags write is
`0xFF`, which under write-1-to-clear semantics clears all flags. -/
theorem loraspi_read_spec (reads : Nat → Nat) (dataResult : Int)
    (hr : ∀ i, reads i < 256) :
    (reads (rxPollLoop reads 0 250).2 &&& SX127X_FLAG_PAYLOADCRCERROR ≠ 0 →
      (loraspi_read_model reads dataResult).1 = -(EBADMSG : Int)) ∧
    (reads (rxPollLoop reads 0 250).2 &&& SX127X_FLAG_PAYLOADCRCERROR = 0 →
      ((rxPollLoop reads 0 250).1 = 0 ∨
        (rxPollLoop reads 0 250).1 &&& SX127X_FLAG_RXTIMEOUT ≠ 0) →
      (loraspi_read_model reads dataResult).1 = -(ENODATA : Int)) ∧
    ((∀ j, j < 250 → reads j &&&
        (SX127X_FLAG_RXTIMEOUT ||| SX127X_FLAG_RXDONE |||
         SX127X_FLAG_PAYLOADCRCERROR) = 0) →
      (rxPollLoop reads 0 250).1 = 0) ∧
    (loraspi_read_model reads dataResult).2 = 0xFF ∧
    (∀ f, w1c f ((loraspi_read_model reads dataResult).2) = 0) := by
  have hw : (loraspi_read_model reads dataResult).2 = 255 := by
    simp only [loraspi_read_model, sx127X_clearLoRaFlag_write]
    exact lor_255_of_byte _ (hr _)
  refine ⟨?_, ?_, ?_, hw, ?_⟩
  · intro hcrc
    simp only [loraspi_read_model]
    rw [if_pos hcrc]
    rw [if_neg (by norm_num [EBADMSG])]
  · intro hcrc hflag
    simp only [loraspi_read_model]
    rw [if_neg (show ¬ (reads (rxPollLoop reads 0 250).2 &&&
      SX127X_FLAG_PAYLOADCRCERROR ≠ 0) from fun hne => hne hcrc)]
    rw [if_pos hflag]
    rw [if_neg (by norm_num [ENODATA])]
  · intro h
    have e := rxPollLoop_all_zero reads 250 0 (fun j hj => by
      simpa using h j hj)
    rw [e]
  · intro f
    rw [hw]
    simp [w1c]

/-- Witness for C7: a chip whose IRQ register constantly reads
PayloadCRCError (`0x20`) yields the malformed-payload error, and the final
flags write is `0xFF`. -/
theorem loraspi_read_spec_witness :
    (loraspi_read_model (fun _ => 0x20) 7).1 = -(EBADMSG : Int) ∧
    (loraspi_read_model (fun _ => 0x20) 7).2 = 0xFF := by
  have h := loraspi_read_spec (fun _ => 0x20) 7 (fun i => by norm_num)
  exact ⟨h.1 (by decide), h.2.2.2.1⟩

/-- If no TXDone flag appears during the whole budget, the TX wait loop
exhausts and forces the sent count to 0. -/
lemma txPollLoop_timeout (flagAt : Nat → Nat) (c : Int) :
    ∀ t i, 0 < t →
    (∀ j, j < t → flagAt (i + j) &&& SX127X_FLAG_TXDONE = 0) →
    txPollLoop flagAt i t c = 0 := by
  intro t
  induction t with
  | zero => intro i h0 _; exact absurd h0 (lt_irrefl 0)
  | succ t ih =>
    intro i _ h
    simp only [txPollLoop]
    rw [if_neg (by simpa using h 0 (by omega))]
    by_cases ht : t = 0
    · simp [ht]
    · rw [if_neg ht]
      exact ih (i + 1) (by omega) (fun j hj => by
        have hh := h (j + 1) (by omega)
        have e : i + (j + 1) = i + 1 + j := by omega
        rwa [e] at hh)

/-- If some poll within the budget observes TXDone, the TX wait loop
returns the transferred count unchanged. -/
lemma txPollLoop_found (flagAt : Nat → Nat) (c : Int) :
    ∀ t i j, j < t → flagAt (i + j) &&& SX127X_FLAG_TXDONE ≠ 0 →
    txPollLoop flagAt i t c = c := by
  intro t
  induction t with
  | zero => intro i j hj _; exact absurd hj (by omega)
  | succ t ih =>
    intro i j hj hflag
    simp only [txPollLoop]
    by_cases h0 : flagAt i &&& SX127X_FLAG_TXDONE ≠ 0
    · rw [if_pos h0]
    · rw [if_neg h0]
      have hj0 : j ≠ 0 := by
        intro e
        subst e
        exact h0 (by simpa using hflag)
      obtain ⟨j', rfl⟩ : ∃ j', j = j' + 1 := ⟨j - 1, by omega⟩
      have ht : t ≠ 0 := by omega
      rw [if_neg ht]
      exact ih (i + 1) j' (by omega) (by
        have e : i + (j' + 1) = i + 1 + j' := by omega
        rwa [e] at hflag)

/-- Claim C8: `loraspi_write` waits exactly `c + p + 3` polling ticks
(`timeout = (c + preamble + 1) + 2` in the source): if no poll within that
budget sees TXDone the reported count is 0, if some poll does the full
transferred count `c` is reported; and regardless of outcome the op-mode
register is stepped through Standby into RX-continuous, so the final mode
field is RXContinuous with the other op-mode bits preserved. -/
theorem loraspi_write_spec (flagAt : Nat → Nat) (p : Nat) (c : Int)
    (m0 : Nat) (hm : m0 < 256) :
    (0 < c → (∀ i, i < (c + p + 3).toNat →
        flagAt i &&& SX127X_FLAG_TXDONE = 0) →
      (loraspi_write_model flagAt p c m0).1 = 0) ∧
    (0 < c → ∀ j, j < (c + p + 3).toNat →
        flagAt j &&& SX127X_FLAG_TXDONE ≠ 0 →
      (loraspi_write_model flagAt p c m0).1 = c) ∧
    (loraspi_write_model flagAt p c m0).2 =
      sx127X_setState m0 SX127X_RXCONTINUOUS_MODE ∧
    (loraspi_write_model flagAt p c m0).2 &&& 0x07 =
      SX127X_RXCONTINUOUS_MODE := by
  have hstate : ∀ m, m < 256 →
      sx127X_setState (sx127X_setState (sx127X_setState
        (sx127X_setState m 1) 3) 1) 5 = sx127X_setState m 5 ∧
      sx127X_setState (sx127X_setState (sx127X_setState m 1) 1) 5 =
        sx127X_setState m 5 ∧
      sx127X_setState m 5 &&& 7 = 5 := by decide
  have hbudget : (c + (p : Int) + 1) + 2 = c + (p : Int) + 3 := by ring
  have h2 : (loraspi_write_model flagAt p c m0).2 =
      sx127X_setState m0 SX127X_RXCONTINUOUS_MODE := by
    simp only [loraspi_write_model, SX127X_STANDBY_MODE, SX127X_TX_MODE,
      SX127X_RXCONTINUOUS_MODE]
    by_cases hc : c > 0
    · rw [if_pos hc]
      exact (hstate m0 hm).1
    · rw [if_neg hc]
      exact (hstate m0 hm).2.1
  refine ⟨?_, ?_, h2, ?_⟩
  · intro hc hall
    simp only [loraspi_write_model, hbudget]
    rw [if_pos hc]
    exact txPollLoop_timeout flagAt c _ 0 (by omega)
      (fun j hj => by simpa using hall j hj)
  · intro hc j hj hflag
    simp only [loraspi_write_model, hbudget]
    rw [if_pos hc]
    exact txPollLoop_found flagAt c _ 0 j hj (by simpa using hflag)
  · rw [h2]
    exact (hstate m0 hm).2.2

/-- Witness for C8: a chip that never raises TXDone, `c = 5` transferred
bytes, preamble length 8, prior op-mode `0x89`: the reported count is 0
and the final op-mode is `setState(0x89, RXContinuous)`. -/
theorem loraspi_write_spec_witness :
    (loraspi_write_model (fun _ => 0) 8 5 0x89).1 = 0 ∧
    (loraspi_write_model (fun _ => 0) 8 5 0x89).2 =
      sx127X_setState 0x89 SX127X_RXCONTINUOUS_MODE := by
  have h := loraspi_write_spec (fun _ => 0) 8 5 0x89 (by decide)
  exact ⟨h.1 (by decide) (fun i _ => by simp), h.2.2.1⟩

/-- Claim C9: the bandwidth encode selects the first index `i` in scan
order with `hz[i] ≥ bw` (defaulting to index 9 when none exists), which is
the smallest supported bandwidth `≥ bw` for `bw ≤ 500000` and clamps to
index 9 (500 kHz, the last entry) above 500000. -/
theorem setLoRaBW_selects_first_ge (bw : Nat) :
    sx127X_setLoRaBW_index bw =
      (((List.range 10).find? (fun i => decide (bw ≤ hz.getD i 0))).getD 9) ∧
    (∀ j, j < sx127X_setLoRaBW_index bw → hz.getD j 0 < bw) ∧
    (bw ≤ 500000 → bw ≤ hz.getD (sx127X_setLoRaBW_index bw) 0) ∧
    (500000 < bw → sx127X_setLoRaBW_index bw = 9) := by
  rw [show List.range 10 = [0, 1, 2, 3, 4, 5, 6, 7, 8, 9] from by decide]
  by_cases c0 : bw ≤ 7800
  · have e : sx127X_setLoRaBW_index bw = 0 := by
      simp [sx127X_setLoRaBW_index, bwGo, hz, c0]
    rw [e]
    refine ⟨by simp [List.find?, hz, c0], fun j hj => by omega,
      fun _ => by simpa [hz] using c0, fun h => by omega⟩
  by_cases c1 : bw ≤ 10400
  · have e : sx127X_setLoRaBW_index bw = 1 := by
      simp [sx127X_setLoRaBW_index, bwGo, hz, c0, c1]
    rw [e]
    refine ⟨by simp [List.find?, hz, c0, c1],
      fun j hj => by interval_cases j <;> simp [hz] <;> omega,
      fun _ => by simpa [hz] using c1, fun h => by omega⟩
  by_cases c2 : bw ≤ 15600
  · have e : sx127X_setLoRaBW_index bw = 2 := by
      simp [sx127X_setLoRaBW_index, bwGo, hz, c0, c1, c2]
    rw [e]
    refine ⟨by simp [List.find?, hz, c0, c1, c2],
      fun j hj => by interval_cases j <;> simp [hz] <;> omega,
      fun _ => by simpa [hz] using c2, fun h => by omega⟩
  by_cases c3 : bw ≤ 20800
  · have e : sx127X_setLoRaBW_index bw = 3 := by
      simp [sx127X_setLoRaBW_index, bwGo, hz, c0, c1, c2, c3]
    rw [e]
    refine ⟨by simp [List.find?, hz, c0, c1, c2, c3],
      fun j hj => by interval_cases j <;> simp [hz] <;> omega,
      fun _ => by simpa [hz] using c3, fun h => by omega⟩
  by_cases c4 : bw ≤ 31250
  · have e : sx127X_setLoRaBW_index bw = 4 := by
      simp [sx127X_setLoRaBW_index, bwGo, hz, c0, c1, c2, c3, c4]
    rw [e]
    refine ⟨by simp [List.find?, hz, c0, c1, c2, c3, c4],
      fun j hj => by interval_cases j <;> simp [hz] <;> omega,
      fun _ => by simpa [hz] using c4, fun h => by omega⟩
  by_cases c5 : bw ≤ 41700
  · have e : sx127X_setLoRaBW_index bw = 5 := by
      simp [sx127X_setLoRaBW_index, bwGo, hz, c0, c1, c2, c3, c4, c5]
    rw [e]
    refine ⟨by simp [List.find?, hz, c0, c1, c2, c3, c4, c5],
      fun j hj => by interval_cases j <;> simp [hz] <;> omega,
      fun _ => by simpa [hz] using c5, fun h => by omega⟩
  by_cases c6 : bw ≤ 62500
  · have e : sx127X_setLoRaBW_index bw = 6 := by
      simp [sx127X_setLoRaBW_index, bwGo, hz, c0, c1, c2, c3, c4, c5, c6]
    rw [e]
    refine ⟨by simp [List.find?, hz, c0, c1, c2, c3, c4, c5, c6],
      fun j hj => by interval_cases j <;> simp [hz] <;> omega,
      fun _ => by simpa [hz] using c6, fun h => by omega⟩
  by_cases c7 : bw ≤ 125000
  · have e : sx127X_setLoRaBW_index bw = 7 := by
      simp [sx127X_setLoRaBW_index, bwGo, hz, c0, c1, c2, c3, c4, c5, c6, c7]
    rw [e]
    refine ⟨by simp [List.find?, hz, c0, c1, c2, c3, c4, c5, c6, c7],
      fun j hj => by interval_cases j <;> simp [hz] <;> omega,
      fun _ => by simpa [hz] using c7, fun h => by omega⟩
  by_cases c8 : bw ≤ 250000
  · have e : sx127X_setLoRaBW_index bw = 8 := by
      simp [sx127X_setLoRaBW_index, bwGo, hz, c0, c1, c2, c3, c4, c5, c6,
        c7, c8]
    rw [e]
    refine ⟨by simp [List.find?, hz, c0, c1, c2, c3, c4, c5, c6, c7, c8],
      fun j hj => by interval_cases j <;> simp [hz] <;> omega,
      fun _ => by simpa [hz] using c8, fun h => by omega⟩
  · have e : sx127X_setLoRaBW_index bw = 9 := by
      simp [sx127X_setLoRaBW_index, bwGo, hz, c0, c1, c2, c3, c4, c5, c6,
        c7, c8]
    rw [e]
    refine ⟨by by_cases c9 : bw ≤ 500000 <;>
        simp [List.find?, hz, c0, c1, c2, c3, c4, c5, c6, c7, c8, c9],
      fun j hj => by interval_cases j <;> simp [hz] <;> omega,
      fun h => by simpa [hz] using h, fun _ => rfl⟩

/-- Witness for C9 at `bw = 300000` Hz: no table entry below index 9 is
`≥ 300000`, so index 9 (500 kHz) is selected, the smallest entry `≥ bw`. -/
theorem setLoRaBW_selects_first_ge_witness :
    sx127X_setLoRaBW_index 300000 = 9 ∧
    (300000 : Nat) ≤ hz.getD (sx127X_setLoRaBW_index 300000) 0 := by
  have h := setLoRaBW_selects_first_ge 300000
  exact ⟨by rw [h.1]; decide, h.2.2.1 (by norm_num)⟩

/-- Claim C10: `sx127X_setState` writes `(old & 0xF8) | (st & 0x07)`: it
changes only the 3-bit mode field and preserves the upper five bits of the
op-mode register, in particular the LoRa-selection bit 7 and the
low/high-frequency-port bit 3, for every target state `st`. -/
theorem setState_preserves_upper_bits (op_mode st : Nat)
    (hm : op_mode < 256) :
    sx127X_setState op_mode st = (op_mode &&& 0xF8) ||| (st &&& 0x07) ∧
    (sx127X_setState op_mode st) >>> 3 = op_mode >>> 3 ∧
    (sx127X_setState op_mode st) &&& 0x07 = st &&& 0x07 ∧
    Nat.testBit (sx127X_setState op_mode st) 7 = Nat.testBit op_mode 7 ∧
    Nat.testBit (sx127X_setState op_mode st) 3 = Nat.testBit op_mode 3 := by
  refine ⟨rfl, ?_, ?_, ?_, ?_⟩
  · apply Nat.eq_of_testBit_eq
    intro j
    simp only [sx127X_setState, Nat.testBit_shiftRight, Nat.testBit_lor,
      Nat.testBit_land]
    by_cases hj : j < 5
    · interval_cases j <;>
        simp [show Nat.testBit 0xF8 3 = true from by decide,
          show Nat.testBit 0xF8 4 = true from by decide,
          show Nat.testBit 0xF8 5 = true from by decide,
          show Nat.testBit 0xF8 6 = true from by decide,
          show Nat.testBit 0xF8 7 = true from by decide,
          show Nat.testBit 0x07 3 = false from by decide,
          show Nat.testBit 0x07 4 = false from by decide,
          show Nat.testBit 0x07 5 = false from by decide,
          show Nat.testBit 0x07 6 = false from by decide,
          show Nat.testBit 0x07 7 = false from by decide]
    · have h1 : Nat.testBit op_mode (3 + j) = false :=
        testBit_byte_high hm (by omega)
      have h2 : Nat.testBit 0xF8 (3 + j) = false :=
        testBit_byte_high (by norm_num) (by omega)
      have h3 : Nat.testBit 0x07 (3 + j) = false :=
        testBit_seven_high (by omega)
      simp [h1, h2, h3]
  · apply Nat.eq_of_testBit_eq
    intro j
    simp only [sx127X_setState, Nat.testBit_lor, Nat.testBit_land]
    by_cases hj : j < 3
    · interval_cases j <;>
        simp [show Nat.testBit 0xF8 0 = false from by decide,
          show Nat.testBit 0xF8 1 = false from by decide,
          show Nat.testBit 0xF8 2 = false from by decide,
          show Nat.testBit 0x07 0 = true from by decide,
          show Nat.testBit 0x07 1 = true from by decide,
          show Nat.testBit 0x07 2 = true from by decide]
    · have h3 : Nat.testBit 0x07 j = false :=
        testBit_seven_high (by omega)
      simp [h3]
  · simp [sx127X_setState, Nat.testBit_lor, Nat.testBit_land,
      show Nat.testBit 0xF8 7 = true from by decide,
      show Nat.testBit 0x07 7 = false from by decide]
  · simp [sx127X_setState, Nat.testBit_lor, Nat.testBit_land,
      show Nat.testBit 0xF8 3 = true from by decide,
      show Nat.testBit 0x07 3 = false from by decide]

/-- Witness for C10 at `op_mode = 0x89` (LoRa bit and low-frequency bit
set, mode Standby), `st = 0x05` (RX-continuous). -/
theorem setState_preserves_upper_bits_witness :
    (0x89 : Nat) < 256 ∧
    sx127X_setState 0x89 0x05 = 0x8D ∧
    (sx127X_setState 0x89 0x05) >>> 3 = 0x89 >>> 3 := by
  refine ⟨by decide, by decide, ?_⟩
  exact (setState_preserves_upper_bits 0x89 0x05 (by decide)).2.1

end SX1278
